import Mathlib

/-!
# Verification of the mainframe-legacy-archiver backend

A shallow embedding of the backend's pure logic, translated from the
Python sources under `back_end/`:

* `back_end/glue/iceberg_etl_job.py` — `sanitize_column_names`
* `back_end/lambda/validation.py` — `_get_csv_schema`, `_run_athena_query`,
  `_get_target_row_count`, `_get_target_schema`, `validate_target`
* `back_end/lambda/athena_query.py` — `_execute_query` (polling loop)
* `back_end/lambda/delete_handler.py` — `_drop_iceberg_table`,
  `_delete_glue_table`, `_delete_metadata_for_table`, `handler`
* `back_end/lambda/metadata_logger.py` — `log_success`, `log_failure`

Strings manipulated character-by-character by the Python code are modelled
as lists of natural-number code points (`List Nat`), so that the character
classes used by the code (`[^a-z0-9]`, the replaced punctuation, Python's
whitespace set for `str.strip`) are explicit arithmetic predicates.
External effects (S3, Athena, Glue, DynamoDB, the clock) are passed in as
explicit environment values; a call that can raise is modelled with
`Except` / `Option`.
-/

namespace Archiver

/-! ## Character-level primitives (Python string methods) -/

/-- `str.lower` restricted to code points: uppercase ASCII letters are
shifted down by 32, anything else is unchanged.  (The repository's column
names are ASCII; non-ASCII case folding is out of scope of this model.) -/
def pyLower (c : Nat) : Nat :=
  if 65 ≤ c ∧ c ≤ 90 then c + 32 else c

/-- The code points stripped by Python's `str.strip()` for inputs below
`0x100`: TAB, LF, VT, FF, CR, FS, GS, RS, US, SPACE, NEL, NBSP. -/
def pyIsSpace (c : Nat) : Bool :=
  (9 ≤ c ∧ c ≤ 13) ∨ (28 ≤ c ∧ c ≤ 32) ∨ c = 133 ∨ c = 160

/-- `str.strip()`: drop whitespace from both ends. -/
def pyStrip (s : List Nat) : List Nat :=
  ((s.dropWhile pyIsSpace).reverse.dropWhile pyIsSpace).reverse

/-- Convert a Lean string literal to its list of code points, for stating
concrete scenarios. -/
def codes (s : String) : List Nat :=
  s.data.map Char.toNat

/-! ## Column normalizers

`sanitize_column_names` (iceberg_etl_job.py, lines 132-148) renames each
column by
`old.strip().lower().replace(" ","_").replace("-","_").replace(".","_")
 .replace("(","").replace(")","").replace("/","_").replace("\\","_")`.
Each replacement rewrites one character to one character (or deletes it),
and no replacement output is a later replacement's target, so the chain of
`str.replace` calls is a per-character map/delete. -/

/-- One character of the writer-side sanitizer: space, hyphen, period,
forward slash and backslash become `_` (95); parentheses are deleted;
every other character is kept. -/
def sanitizeChar (c : Nat) : Option Nat :=
  if c = 32 ∨ c = 45 ∨ c = 46 ∨ c = 47 ∨ c = 92 then some 95
  else if c = 40 ∨ c = 41 then none
  else some c

/-- `sanitize_column_names` applied to a single column name. -/
def sanitize_column_name (name : List Nat) : List Nat :=
  ((pyStrip name).map pyLower).filterMap sanitizeChar

/-- One character of the validation-side normalizer
(`re.sub(r'[^a-z0-9]', '_', ...)`): anything that is not a lowercase ASCII
letter or digit becomes `_` (95). -/
def csvSchemaChar (c : Nat) : Nat :=
  if (97 ≤ c ∧ c ≤ 122) ∨ (48 ≤ c ∧ c ≤ 57) then c else 95

/-- The normalization `_get_csv_schema` (validation.py, lines 54-60)
applies to each header cell: `re.sub(r'[^a-z0-9]', '_', col.strip().lower())`. -/
def csv_schema_normalize (name : List Nat) : List Nat :=
  ((pyStrip name).map pyLower).map csvSchemaChar

/-- `_get_csv_schema` maps the normalization over the parsed header row. -/
def get_csv_schema (header : List (List Nat)) : List (List Nat) :=
  header.map csv_schema_normalize

/-! ## Athena query polling

Three separate polling loops occur in the sources; each is embedded on its
own, mirroring the duplication.  The engine is modelled as an oracle
`state : Nat → QueryState` giving the state observed by the n-th
`get_query_execution` call, together with `reason : Nat → Option String`
for the optional `StateChangeReason` field. -/

/-- The Athena query-execution states distinguished by the code. -/
inductive QueryState where
  | RUNNING
  | SUCCEEDED
  | FAILED
  | CANCELLED
deriving DecidableEq, Repr

/-- Environment of one `_run_athena_query` call (validation.py): the state
oracle, the reason oracle, and the rows `get_query_results` would return
after success.  Each row is its list of `Data` cells; a `COUNT(*)` cell is
modelled as the integer its `VarCharValue` parses to. -/
structure AthenaEnv where
  state : Nat → QueryState
  reason : Nat → Option String
  results : List (List Int)

/-- Poll interval of `_run_athena_query` (validation.py, `time.sleep(2)`). -/
def validationPollInterval : Nat := 2

/-- Attempt budget of `_run_athena_query` (validation.py, `range(60)`). -/
def validationPollAttempts : Nat := 60

/-- The `for _ in range(60): ... else: raise` loop of `_run_athena_query`
(validation.py, lines 104-115).  `fuel` counts the remaining iterations and
`i` the current attempt index; exhausting the range raises
`Exception("Athena query timed out")`, a FAILED/CANCELLED state raises
`Exception(f"Athena query {state}: {reason}")` with the reason defaulting
to `"Unknown"`, and SUCCEEDED breaks out successfully. -/
def athenaQueryWait (env : AthenaEnv) : Nat → Nat → Except String Unit
  | 0, _ => .error "Athena query timed out"
  | fuel + 1, i =>
    match env.state i with
    | .SUCCEEDED => .ok ()
    | .FAILED => .error ("Athena query FAILED: " ++ ((env.reason i).getD "Unknown"))
    | .CANCELLED => .error ("Athena query CANCELLED: " ++ ((env.reason i).getD "Unknown"))
    | .RUNNING => athenaQueryWait env fuel (i + 1)

/-- `_run_athena_query` (validation.py, lines 95-120): wait for the query,
then return the result rows; a raised exception is an `Except.error`. -/
def run_athena_query (env : AthenaEnv) : Except String (List (List Int)) :=
  match athenaQueryWait env validationPollAttempts 0 with
  | .error e => .error e
  | .ok () => .ok env.results

/-- Poll interval of `_drop_iceberg_table` (delete_handler.py, `time.sleep(2)`). -/
def dropPollInterval : Nat := 2

/-- Attempt budget of `_drop_iceberg_table` (delete_handler.py, `range(30)`). -/
def dropPollAttempts : Nat := 30

/-- The `for _ in range(30)` loop of `_drop_iceberg_table`
(delete_handler.py, lines 70-80): SUCCEEDED returns `True`,
FAILED/CANCELLED returns `False`, falling off the range returns `False`. -/
def dropTableWait (state : Nat → QueryState) : Nat → Nat → Bool
  | 0, _ => false
  | fuel + 1, i =>
    match state i with
    | .SUCCEEDED => true
    | .FAILED => false
    | .CANCELLED => false
    | .RUNNING => dropTableWait state fuel (i + 1)

/-- Environment of one `_drop_iceberg_table` call: `startError` is `some`
when `start_query_execution` itself raises (caught by the surrounding
`try`, yielding `False`). -/
structure DropEnv where
  startError : Option String
  state : Nat → QueryState

/-- `_drop_iceberg_table` (delete_handler.py, lines 58-83). -/
def drop_iceberg_table (env : DropEnv) : Bool :=
  match env.startError with
  | some _ => false
  | none => dropTableWait env.state dropPollAttempts 0

/-- Poll interval of `_execute_query` (athena_query.py, `time.sleep(2)`). -/
def execPollInterval : Nat := 2

/-- Attempt budget of `_execute_query` (athena_query.py, `range(60)`). -/
def execPollAttempts : Nat := 60

/-- Outcome of the polling loop inside `_execute_query`. -/
inductive ExecWait where
  | succeeded
  | engineStopped (state : String) (reason : String)
  | timedOut
deriving DecidableEq, Repr

/-- The `for attempt in range(60): ... else:` loop of `_execute_query`
(athena_query.py, lines 47-69); on FAILED/CANCELLED the reason defaults to
`"Query execution failed"`. -/
def executeQueryLoop (state : Nat → QueryState) (reason : Nat → Option String) :
    Nat → Nat → ExecWait
  | 0, _ => .timedOut
  | fuel + 1, i =>
    match state i with
    | .SUCCEEDED => .succeeded
    | .FAILED => .engineStopped "FAILED" ((reason i).getD "Query execution failed")
    | .CANCELLED => .engineStopped "CANCELLED" ((reason i).getD "Query execution failed")
    | .RUNNING => executeQueryLoop state reason fuel (i + 1)

/-- The status/error portion of the dict `_execute_query` returns: a
terminal engine state returns that state and its reason, exhaustion of the
range returns status `TIMEOUT` with a fixed message — in both cases by
`return`, never by raising.  (The result-set fields assembled after a
SUCCEEDED break — columns, data, statistics — are not needed by any claim
and are left out of the model.) -/
structure ExecOutcome where
  status : String
  error : Option String
deriving DecidableEq, Repr

/-- `_execute_query` (athena_query.py, lines 32-108), restricted to its
status/error behaviour. -/
def execute_query (state : Nat → QueryState) (reason : Nat → Option String) :
    ExecOutcome :=
  match executeQueryLoop state reason execPollAttempts 0 with
  | .succeeded => { status := "SUCCEEDED", error := none }
  | .engineStopped st r => { status := st, error := some r }
  | .timedOut => { status := "TIMEOUT", error := some "Query timed out after 120 seconds" }

/-- Modelled from the spec (§4.2): the Bounded Query Primitive's polling
semantics — observe the state once per attempt, stop at the first terminal
state, report a timeout when the attempt budget is exhausted.  Used only
to compare the source loops against each other. -/
inductive PollOutcome where
  | succeeded
  | failed
  | cancelled
  | timeout
deriving DecidableEq, Repr

/-- Modelled from the spec (§4.2): the shared bounded polling combinator
the two source loops are claimed to refine. -/
def boundedPoll (state : Nat → QueryState) : Nat → Nat → PollOutcome
  | 0, _ => .timeout
  | fuel + 1, i =>
    match state i with
    | .SUCCEEDED => .succeeded
    | .FAILED => .failed
    | .CANCELLED => .cancelled
    | .RUNNING => boundedPoll state fuel (i + 1)

/-! ## Target-side validation (validation.py) -/

/-- `_get_target_row_count` (validation.py, lines 123-134): run the
`COUNT(*)` query; on success take `int(rows[1]["Data"][0]["VarCharValue"])`
when there is a data row below the header, else `0`; any exception —
including the one `_run_athena_query` raises and the `IndexError` from a
malformed result row — is caught and yields `-1`. -/
def get_target_row_count (env : AthenaEnv) : Int :=
  match run_athena_query env with
  | .error _ => -1
  | .ok rows =>
    if 1 < rows.length then
      match rows.get? 1 with
      | some (c :: _) => c
      | _ => -1
    else 0

/-- `_get_target_schema` (validation.py, lines 137-146): the Glue column
names lower-cased; any exception yields `[]`.  The Glue response is the
`cols` value; column names are lists of code points so that `.lower()` is
`pyLower`. -/
def get_target_schema (glueCols : Except String (List (List Nat))) : List (List Nat) :=
  match glueCols with
  | .error _ => []
  | .ok cols => cols.map (List.map pyLower)

/-- The fields `validate_target` reads from its event, with the same
defaults as the Python `event.get` calls. -/
structure TargetEvent where
  database : String
  table : String
  source_row_count : Int
  source_schema : List (List Nat)
  source_checksum : String
  load_type : String
deriving Repr

/-- The `validation_details` dict built by `validate_target`. -/
structure ValidationDetails where
  row_count_match : Bool
  schema_match : Bool
  checksum_match : Bool
  source_row_count : Int
  target_row_count : Int
  source_schema : List (List Nat)
  target_schema : List (List Nat)
deriving Repr

/-- The dict returned by `validate_target`. -/
structure TargetVerdict where
  target_row_count : Int
  schema_match : Bool
  checksum_match : Bool
  validation_status : String
  validation_details : ValidationDetails
deriving Repr

/-- The schema comparison of `validate_target` (validation.py, lines
187-192): `schema_match` starts `True`; when both schemas are non-empty
(Python truthiness), it is the subset test of the lower-cased source
column set against the lower-cased target column set. -/
def schemaMatchOf (src tgt : List (List Nat)) : Bool :=
  if src ≠ [] ∧ tgt ≠ [] then
    (src.map (List.map pyLower)).all fun s => (tgt.map (List.map pyLower)).contains s
  else true

/-- `validate_target` (validation.py, lines 168-215).  The Athena count
query and the Glue schema lookup are passed in as environment values. -/
def validate_target (e : TargetEvent) (env : AthenaEnv)
    (glueCols : Except String (List (List Nat))) : TargetVerdict :=
  let target_row_count := get_target_row_count env
  let target_schema := get_target_schema glueCols
  let row_count_match :=
    if e.load_type = "full" then decide (e.source_row_count = target_row_count)
    else decide (target_row_count ≥ e.source_row_count)
  let schema_match := schemaMatchOf e.source_schema target_schema
  let checksum_match := true
  let validation_status :=
    if row_count_match = true ∧ schema_match = true then "PASSED" else "FAILED"
  { target_row_count := target_row_count
    schema_match := schema_match
    checksum_match := checksum_match
    validation_status := validation_status
    validation_details :=
      { row_count_match := row_count_match
        schema_match := schema_match
        checksum_match := checksum_match
        source_row_count := e.source_row_count
        target_row_count := target_row_count
        source_schema := e.source_schema
        target_schema := target_schema } }

/-! ## Job ledger (metadata_logger.py)

`log_success` and `log_failure` each assemble a DynamoDB item and
`put_item` it.  The item is modelled as a structure; fields the Python
code reads from the wall clock (`end_time`, and the `duration` that
`_calculate_duration` derives from it) are supplied by the environment. -/

/-- The `validation_result` dict carried in a success event; each field is
optional, mirroring the `.get` defaults in `log_success`. -/
structure ValidationResultDict where
  validation_status : Option String
  target_row_count : Option Int
  schema_match : Option Bool
  checksum_match : Option Bool
deriving Repr

/-- The fields `log_success` / `log_failure` read from their event;
`none` models an absent key. -/
structure LoggerEvent where
  job_id : Option String
  database : Option String
  table : Option String
  email : Option String
  file_name : Option String
  start_time : Option String
  validation_result : Option ValidationResultDict
  source_row_count : Option Int
  errCause : Option String
  errName : Option String
  errAsString : String
deriving Repr

/-- Clock-dependent values of one logger invocation: a fresh UUID (used
when the event has no `job_id`/`start_time`), the current ISO timestamp,
and the string `_calculate_duration` renders from it. -/
structure LoggerClock where
  freshUuid : String
  nowIso : String
  durationStr : String
deriving Repr

/-- The DynamoDB item `log_success` writes (the superset of the
`log_failure` item; fields `log_failure` does not set are absent there and
carried as `Option`). -/
structure LedgerItem where
  job_id : String
  file_name : String
  table_name : String
  database_name : String
  archived_by : String
  start_time : String
  end_time : String
  duration : String
  validation_status : String
  source_row_count : Option Int
  target_row_count : Option Int
  schema_match : Option Bool
  checksum_match : Option Bool
  error_message : String
  status : String
deriving Repr

/-- `log_success` (metadata_logger.py, lines 60-92): the persisted item.
`validation_status` is copied from the event's validation result
(default `"PASSED"`), and `status` is the literal `"SUCCESS"`. -/
def log_success (e : LoggerEvent) (clk : LoggerClock) : LedgerItem :=
  let validation_result := e.validation_result.getD
    { validation_status := none, target_row_count := none
      schema_match := none, checksum_match := none }
  { job_id := e.job_id.getD clk.freshUuid
    file_name := e.file_name.getD "unknown"
    table_name := e.table.getD "unknown"
    database_name := e.database.getD "unknown"
    archived_by := e.email.getD "unknown"
    start_time := e.start_time.getD clk.nowIso
    end_time := clk.nowIso
    duration := clk.durationStr
    validation_status := validation_result.validation_status.getD "PASSED"
    source_row_count := some (e.source_row_count.getD 0)
    target_row_count := some (validation_result.target_row_count.getD 0)
    schema_match := some (validation_result.schema_match.getD true)
    checksum_match := some (validation_result.checksum_match.getD true)
    error_message := ""
    status := "SUCCESS" }

/-- The `error_message` computed by `log_failure`:
`str(error.get("Cause", error.get("Error", str(error))))`, truncated to
1000 characters. -/
def failureMessage (e : LoggerEvent) : String :=
  (e.errCause.getD (e.errName.getD e.errAsString)).take 1000

/-- `log_failure` (metadata_logger.py, lines 95-123): the persisted item.
Both `validation_status` and `status` are the literal `"FAILED"`; the
row-count/schema/checksum fields are not written. -/
def log_failure (e : LoggerEvent) (clk : LoggerClock) : LedgerItem :=
  { job_id := e.job_id.getD clk.freshUuid
    file_name := e.file_name.getD "unknown"
    table_name := e.table.getD "unknown"
    database_name := e.database.getD "unknown"
    archived_by := e.email.getD "unknown"
    start_time := e.start_time.getD clk.nowIso
    end_time := clk.nowIso
    duration := clk.durationStr
    validation_status := "FAILED"
    source_row_count := none
    target_row_count := none
    schema_match := none
    checksum_match := none
    error_message := failureMessage e
    status := "FAILED" }

/-! ## Teardown (delete_handler.py) -/

/-- Outcome of `glue_client.delete_table` as seen by `_delete_glue_table`:
plain success, `EntityNotFoundException`, or any other exception. -/
inductive GlueDeleteOutcome where
  | ok
  | entityNotFound
  | otherError (msg : String)
deriving DecidableEq, Repr

/-- `_delete_glue_table` (delete_handler.py, lines 86-95): success and
"not found" both return `True`; any other exception returns `False`. -/
def delete_glue_table (outcome : GlueDeleteOutcome) : Bool :=
  match outcome with
  | .ok => true
  | .entityNotFound => true
  | .otherError _ => false

/-- One DynamoDB item as read by `_delete_metadata_for_table`. -/
structure MetaItem where
  job_id : String
  start_time : String
  database_name : String
  table_name : String
deriving DecidableEq, Repr

/-- `_delete_metadata_for_table` (delete_handler.py, lines 98-116): query
the `table-name-index`, delete every returned item whose `database_name`
matches, and return the count.  The query (and hence the whole helper)
can raise; nothing here catches. -/
def delete_metadata_for_table (database : String)
    (queryItems : Except String (List MetaItem)) : Except String Nat :=
  match queryItems with
  | .error e => .error e
  | .ok items => .ok (items.filter (fun i => i.database_name = database)).length

/-- External-world outcomes of one teardown invocation.  The two
`_delete_s3_prefix` calls paginate-and-delete and return a count, or raise
(nothing inside them catches); the metadata query likewise. -/
structure TeardownEnv where
  rawDelete : Except String Nat
  warehouseDelete : Except String Nat
  drop : DropEnv
  glue : GlueDeleteOutcome
  metaQuery : Except String (List MetaItem)

/-- One entry of the `steps` list the teardown handler returns; fields a
given step does not set are `none`. -/
structure TeardownStep where
  action : String
  prefixValue : Option String
  deleted_objects : Option Nat
  iceberg_dropped : Option Bool
  glue_deleted : Option Bool
  deleted_records : Option Nat
  status : String
deriving DecidableEq, Repr

/-- The three responses the teardown handler can produce: the 400
missing-parameter response, the 200 response with the steps list and
overall status, or the 500 response from the catch-all `except`. -/
inductive TeardownResult where
  | badRequest (msg : String)
  | ok (steps : List TeardownStep) (status : String)
  | serverError (msg : String)
deriving DecidableEq, Repr

/-- `handler` (delete_handler.py, lines 119-185).  Exceptions raised by the
S3-prefix deletions or the metadata query propagate to the outer
`try`/`except` and become the 500 response, cutting the remaining steps
off; `_drop_iceberg_table` and `_delete_glue_table` swallow their own
errors and only flip their booleans. -/
def teardown_handler (database table : String) (env : TeardownEnv) : TeardownResult :=
  if database = "" ∨ table = "" then .badRequest "database and table are required"
  else
    match env.rawDelete with
    | .error e => .serverError e
    | .ok rawDeleted =>
      match env.warehouseDelete with
      | .error e => .serverError e
      | .ok warehouseDeleted =>
        let tableDropped := drop_iceberg_table env.drop
        let glueDeleted := delete_glue_table env.glue
        match delete_metadata_for_table database env.metaQuery with
        | .error e => .serverError e
        | .ok metadataDeleted =>
          let steps : List TeardownStep :=
            [ { action := "delete_s3_raw"
                prefixValue := some (database ++ "/" ++ table ++ "/raw/")
                deleted_objects := some rawDeleted
                iceberg_dropped := none, glue_deleted := none
                deleted_records := none, status := "SUCCESS" },
              { action := "delete_s3_warehouse"
                prefixValue := some ("warehouse/" ++ database ++ "/" ++ table ++ "/")
                deleted_objects := some warehouseDeleted
                iceberg_dropped := none, glue_deleted := none
                deleted_records := none, status := "SUCCESS" },
              { action := "delete_catalog_table"
                prefixValue := none, deleted_objects := none
                iceberg_dropped := some tableDropped
                glue_deleted := some glueDeleted
                deleted_records := none
                status := if tableDropped || glueDeleted then "SUCCESS" else "FAILED" },
              { action := "delete_metadata"
                prefixValue := none, deleted_objects := none
                iceberg_dropped := none, glue_deleted := none
                deleted_records := some metadataDeleted
                status := "SUCCESS" } ]
          let overallSuccess := steps.all fun s => s.status = "SUCCESS"
          .ok steps (if overallSuccess then "SUCCESS" else "PARTIAL")

/-- The character class on which the two normalizers agree (stated on the
stripped, lower-cased character): lowercase ASCII letters, digits,
underscore, and the five punctuation characters the writer-side sanitizer
maps to underscore. -/
def agreeChar (c : Nat) : Bool :=
  (97 ≤ c ∧ c ≤ 122) ∨ (48 ≤ c ∧ c ≤ 57) ∨
    c = 95 ∨ c = 32 ∨ c = 45 ∨ c = 46 ∨ c = 47 ∨ c = 92

end Archiver

namespace Archiver

/-! ## Helper lemmas -/

theorem mem_of_mem_dropWhile {α : Type} (p : α → Bool) (l : List α) (a : α)
    (h : a ∈ l.dropWhile p) : a ∈ l := by
  induction l with
  | nil => simp at h
  | cons b t ih =>
    rw [List.dropWhile_cons] at h
    by_cases hp : p b = true
    · simp only [hp, if_true] at h
      exact List.mem_cons_of_mem _ (ih h)
    · simp only [hp, if_false] at h
      exact h

theorem mem_of_mem_pyStrip (s : List Nat) (c : Nat) (h : c ∈ pyStrip s) : c ∈ s := by
  unfold pyStrip at h
  rw [List.mem_reverse] at h
  have h1 := mem_of_mem_dropWhile _ _ _ h
  rw [List.mem_reverse] at h1
  exact mem_of_mem_dropWhile _ _ _ h1

theorem dropWhile_eq_self_of_forall {α : Type} (p : α → Bool) (l : List α)
    (h : ∀ a ∈ l, p a = false) : l.dropWhile p = l := by
  cases l with
  | nil => rfl
  | cons b t =>
    rw [List.dropWhile_cons]
    simp [h b (List.mem_cons_self b t)]

theorem pyStrip_eq_self_of_forall (l : List Nat)
    (h : ∀ c ∈ l, pyIsSpace c = false) : pyStrip l = l := by
  unfold pyStrip
  rw [dropWhile_eq_self_of_forall _ _ h]
  rw [dropWhile_eq_self_of_forall]
  · rw [List.reverse_reverse]
  · intro c hc
    exact h c (List.mem_reverse.mp hc)

theorem map_eq_self_of_forall {α : Type} (f : α → α) (l : List α)
    (h : ∀ a ∈ l, f a = a) : l.map f = l := by
  induction l with
  | nil => rfl
  | cons b t ih =>
    rw [List.map_cons, h b (List.mem_cons_self b t),
      ih fun a ha => h a (List.mem_cons_of_mem _ ha)]

theorem filterMap_eq_self_of_forall {α : Type} (f : α → Option α) (l : List α)
    (h : ∀ a ∈ l, f a = some a) : l.filterMap f = l := by
  induction l with
  | nil => rfl
  | cons b t ih =>
    rw [List.filterMap_cons, h b (List.mem_cons_self b t),
      ih fun a ha => h a (List.mem_cons_of_mem _ ha)]

theorem pyLower_idem (c : Nat) : pyLower (pyLower c) = pyLower c := by
  unfold pyLower
  split_ifs <;> omega

/-! ## C1 -/

theorem validation_status_cases (rcm sm : Bool) :
    ((if rcm = true ∧ sm = true then "PASSED" else "FAILED") = "PASSED" ↔
      rcm = true ∧ sm = true) ∧
    ((if rcm = true ∧ sm = true then "PASSED" else "FAILED") = "FAILED" ↔
      ¬(rcm = true ∧ sm = true)) := by
  cases rcm <;> cases sm <;> decide

/-- C1: for every `validate_target` invocation, the returned
`validation_status` is `"PASSED"` iff both `row_count_match` and
`schema_match` are true, and is `"FAILED"` otherwise, across all
combinations of the two flags. -/
theorem C1_validation_status_iff_both_match (e : TargetEvent) (env : AthenaEnv)
    (glueCols : Except String (List (List Nat))) :
    ((validate_target e env glueCols).validation_status = "PASSED" ↔
      (validate_target e env glueCols).validation_details.row_count_match = true ∧
        (validate_target e env glueCols).validation_details.schema_match = true) ∧
    ((validate_target e env glueCols).validation_status = "FAILED" ↔
      ¬((validate_target e env glueCols).validation_details.row_count_match = true ∧
        (validate_target e env glueCols).validation_details.schema_match = true)) :=
  validation_status_cases _ _

/-! ## C2 -/

/-- C2: a job whose pipeline reaches `log_success` is persisted with
lifecycle status `"SUCCESS"` no matter what verdict the event carries —
the verdict is copied into the record's `validation_status` field but the
`status` field is the literal `"SUCCESS"`; only `log_failure` writes a
record with status `"FAILED"`. -/
theorem C2_success_status_independent_of_verdict (e : LoggerEvent) (clk : LoggerClock) :
    (log_success e clk).status = "SUCCESS" ∧
    (log_success e clk).validation_status =
      (match e.validation_result with
        | some v => v.validation_status.getD "PASSED"
        | none => "PASSED") ∧
    (log_failure e clk).status = "FAILED" := by
  refine ⟨rfl, ?_, rfl⟩
  cases h : e.validation_result <;> simp [log_success, h]

/-! ## C3 -/

/-- C3: `row_count_match` is exact equality of source and target row
counts for a `full` load, and `target ≥ source` for every other load
type. -/
theorem C3_row_count_match_policy (e : TargetEvent) (env : AthenaEnv)
    (glueCols : Except String (List (List Nat))) :
    (validate_target e env glueCols).validation_details.row_count_match = true ↔
      (if e.load_type = "full"
        then e.source_row_count = (validate_target e env glueCols).target_row_count
        else (validate_target e env glueCols).target_row_count ≥ e.source_row_count) := by
  unfold validate_target
  by_cases h : e.load_type = "full" <;> simp [h]

/-! ## C4 -/

theorem agree_char_cases (c : Nat) :
    (agreeChar c = true ∧ sanitizeChar c = some (csvSchemaChar c)) ∨
    (agreeChar c = false ∧ sanitizeChar c = none) ∨
    (agreeChar c = false ∧ ∃ d, sanitizeChar c = some d ∧ d ≠ csvSchemaChar c) := by
  unfold agreeChar sanitizeChar csvSchemaChar
  by_cases h1 : c = 32 ∨ c = 45 ∨ c = 46 ∨ c = 47 ∨ c = 92
  · left
    simp only [if_pos h1]
    constructor
    · simp only [decide_eq_true_eq]
      omega
    · rw [if_neg (by omega)]
  · by_cases h2 : c = 40 ∨ c = 41
    · right; left
      simp only [if_neg h1, if_pos h2]
      constructor
      · simp only [decide_eq_false_iff_not]
        omega
      · trivial
    · by_cases h3 : (97 ≤ c ∧ c ≤ 122) ∨ (48 ≤ c ∧ c ≤ 57) ∨ c = 95
      · left
        simp only [if_neg h1, if_neg h2]
        constructor
        · simp only [decide_eq_true_eq]
          omega
        · split_ifs with h4
          · rfl
          · have hc : c = 95 := by omega
            rw [hc]
      · right; right
        simp only [if_neg h1, if_neg h2]
        refine ⟨by simp only [decide_eq_false_iff_not]; omega, c, rfl, ?_⟩
        split_ifs with h4
        · omega
        · omega

theorem csv_sanitize_agree_iff (l : List Nat) :
    l.map csvSchemaChar = l.filterMap sanitizeChar ↔ l.all agreeChar = true := by
  induction l with
  | nil => simp
  | cons c t ih =>
    rw [List.map_cons, List.all_cons, Bool.and_eq_true]
    rcases agree_char_cases c with ⟨ha, hs⟩ | ⟨ha, hs⟩ | ⟨ha, d, hs, hd⟩
    · rw [List.filterMap_cons_some hs, ha]
      simp only [List.cons.injEq, true_and, ih]
    · rw [List.filterMap_cons_none hs, ha]
      constructor
      · intro hcontra
        exfalso
        have hlen := congrArg List.length hcontra
        rw [List.length_cons, List.length_map] at hlen
        have := List.length_filterMap_le sanitizeChar t
        omega
      · rintro ⟨h, -⟩
        exact (Bool.false_ne_true h).elim
    · rw [List.filterMap_cons_some hs, ha]
      constructor
      · intro hcontra
        exfalso
        rw [List.cons.injEq] at hcontra
        exact hd hcontra.1.symm
      · rintro ⟨h, -⟩
        exact (Bool.false_ne_true h).elim

/-- C4, amended: the two column normalizations agree exactly on names
every stripped, lower-cased character of which is a lowercase letter, a
digit, an underscore, or one of the five punctuation characters the
writer-side sanitizer rewrites to underscore; on any other character
(parentheses, `$`, ...) they differ. -/
theorem C4_amended_normalizers_agree_iff (name : List Nat) :
    csv_schema_normalize name = sanitize_column_name name ↔
      (((pyStrip name).map pyLower).all agreeChar) = true := by
  unfold csv_schema_normalize sanitize_column_name
  exact csv_sanitize_agree_iff _

/-- C4, counterexample: on the header cell `"Amount($)"` the validation
side's `_get_csv_schema` normalization and the writer side's
`sanitize_column_names` normalization disagree (`"amount___"` versus
`"amount$"`), so the two functions are not extensionally equal. -/
theorem C4_counterexample_normalizers_differ :
    csv_schema_normalize (codes "Amount($)") ≠ sanitize_column_name (codes "Amount($)") ∧
    csv_schema_normalize (codes "Amount($)") = codes "amount___" ∧
    sanitize_column_name (codes "Amount($)") = codes "amount$" := by
  refine ⟨?_, by decide, by decide⟩
  decide

/-! ## C5 -/

/-- C5, counterexample: neither normalizer maps `"Amount($)"` to
`"amount"` — the writer-side sanitizer keeps the dollar sign
(`"amount$"`) and the CSV-schema normalizer rewrites each of `(`, `$`,
`)` to an underscore (`"amount___"`). -/
theorem C5_counterexample_amount_header :
    sanitize_column_name (codes "Amount($)") ≠ codes "amount" ∧
    csv_schema_normalize (codes "Amount($)") ≠ codes "amount" := by
  constructor <;> decide

/-- C5, amended: on the header `["First Name", "Amount($)"]` both
normalizers map `"First Name"` to `"first_name"`, but `"Amount($)"`
becomes `"amount$"` under the writer-side sanitizer and `"amount___"`
under the CSV-schema normalization, not `"amount"`. -/
theorem C5_amended_scenario_a_header :
    sanitize_column_name (codes "First Name") = codes "first_name" ∧
    csv_schema_normalize (codes "First Name") = codes "first_name" ∧
    sanitize_column_name (codes "Amount($)") = codes "amount$" ∧
    csv_schema_normalize (codes "Amount($)") = codes "amount___" := by
  refine ⟨by decide, by decide, by decide, by decide⟩

/-! ## C6 -/

theorem pyIsSpace_false_of_lower_alpha (c : Nat) (h : 97 ≤ c ∧ c ≤ 122) :
    pyIsSpace c = false := by
  unfold pyIsSpace
  simp only [decide_eq_false_iff_not]
  omega

/-- Every character of a sanitized name (of a source name whose only
whitespace is the plain space) is a fixed point of stripping, lowering
and sanitizing. -/
theorem sanitize_output_char_fixed (name : List Nat)
    (h : ∀ c ∈ name, pyIsSpace c = true → c = 32)
    (d : Nat) (hd : d ∈ sanitize_column_name name) :
    pyIsSpace d = false ∧ pyLower d = d ∧ sanitizeChar d = some d := by
  unfold sanitize_column_name at hd
  rcases List.mem_filterMap.mp hd with ⟨x, hx, hgx⟩
  rcases List.mem_map.mp hx with ⟨c, hc, rfl⟩
  have hcname : c ∈ name := mem_of_mem_pyStrip _ _ hc
  unfold sanitizeChar at hgx
  by_cases h1 : pyLower c = 32 ∨ pyLower c = 45 ∨ pyLower c = 46 ∨
      pyLower c = 47 ∨ pyLower c = 92
  · rw [if_pos h1] at hgx
    cases hgx
    refine ⟨by decide, by decide, by decide⟩
  · rw [if_neg h1] at hgx
    by_cases h2 : pyLower c = 40 ∨ pyLower c = 41
    · rw [if_pos h2] at hgx
      cases hgx
    · rw [if_neg h2] at hgx
      cases hgx
      refine ⟨?_, pyLower_idem c, ?_⟩
      · by_cases hup : 65 ≤ c ∧ c ≤ 90
        · refine pyIsSpace_false_of_lower_alpha _ ?_
          unfold pyLower
          rw [if_pos hup]
          omega
        · have hlc : pyLower c = c := by
            unfold pyLower
            rw [if_neg hup]
          rw [hlc]
          by_cases hsp : pyIsSpace c = true
          · have := h c hcname hsp
            rw [hlc] at h1
            omega
          · exact Bool.not_eq_true _ |>.mp hsp
      · unfold sanitizeChar
        rw [if_neg h1, if_neg h2]

/-- C6, amended: the writer-side normalizer is a pure function of the
single name (determinism is definitional in the embedding), and it is
idempotent on every name whose whitespace characters are all the plain
space; a parenthesis shielding a tab, newline, or other stripped-but-not-
replaced whitespace character breaks idempotence. -/
theorem C6_amended_idempotent_without_exotic_whitespace (name : List Nat)
    (h : ∀ c ∈ name, pyIsSpace c = true → c = 32) :
    sanitize_column_name (sanitize_column_name name) = sanitize_column_name name ∧
    (∀ other : List Nat, other = name →
      sanitize_column_name other = sanitize_column_name name) := by
  constructor
  · have hfix := sanitize_output_char_fixed name h
    have h1 : pyStrip (sanitize_column_name name) = sanitize_column_name name :=
      pyStrip_eq_self_of_forall _ fun c hc => (hfix c hc).1
    have h2 : (sanitize_column_name name).map pyLower = sanitize_column_name name :=
      map_eq_self_of_forall _ _ fun c hc => (hfix c hc).2.1
    have h3 : (sanitize_column_name name).filterMap sanitizeChar = sanitize_column_name name :=
      filterMap_eq_self_of_forall _ _ fun c hc => (hfix c hc).2.2
    calc sanitize_column_name (sanitize_column_name name)
        = ((pyStrip (sanitize_column_name name)).map pyLower).filterMap sanitizeChar := rfl
      _ = sanitize_column_name name := by rw [h1, h2, h3]
  · intro other hother
    rw [hother]

/-- C6, counterexample: on the name `"(\ta"` (open parenthesis, tab,
letter) the normalizer is not idempotent — one pass deletes the
parenthesis and leaves the tab in front, the next pass strips that tab. -/
theorem C6_counterexample_tab_behind_parenthesis :
    sanitize_column_name (sanitize_column_name (codes "(\ta")) ≠
      sanitize_column_name (codes "(\ta") := by
  decide

/-- C6, witness for the amended theorem at `"First Name"`. -/
theorem C6_amended_witness :
    sanitize_column_name (sanitize_column_name (codes "First Name")) =
      sanitize_column_name (codes "First Name") :=
  (C6_amended_idempotent_without_exotic_whitespace (codes "First Name")
    (by decide)).1

/-! ## C7 and C8: polling loops -/

theorem athenaWait_ok_iff (env : AthenaEnv) (fuel i : Nat) :
    athenaQueryWait env fuel i = .ok () ↔ boundedPoll env.state fuel i = .succeeded := by
  induction fuel generalizing i with
  | zero => simp [athenaQueryWait, boundedPoll]
  | succ n ih =>
    cases h : env.state i with
    | RUNNING =>
      simp only [athenaQueryWait, boundedPoll, h]
      exact ih (i + 1)
    | SUCCEEDED => simp [athenaQueryWait, boundedPoll, h]
    | FAILED => simp [athenaQueryWait, boundedPoll, h]
    | CANCELLED => simp [athenaQueryWait, boundedPoll, h]

theorem athenaWait_total (env : AthenaEnv) (fuel i : Nat) :
    (∃ msg, athenaQueryWait env fuel i = .error msg) ↔
      athenaQueryWait env fuel i ≠ .ok () := by
  cases hr : athenaQueryWait env fuel i with
  | ok u => cases u; simp
  | error e => simp

theorem dropWait_iff (st : Nat → QueryState) (fuel i : Nat) :
    dropTableWait st fuel i = true ↔ boundedPoll st fuel i = .succeeded := by
  induction fuel generalizing i with
  | zero => simp [dropTableWait, boundedPoll]
  | succ n ih =>
    cases h : st i with
    | RUNNING =>
      simp only [dropTableWait, boundedPoll, h]
      exact ih (i + 1)
    | SUCCEEDED => simp [dropTableWait, boundedPoll, h]
    | FAILED => simp [dropTableWait, boundedPoll, h]
    | CANCELLED => simp [dropTableWait, boundedPoll, h]

theorem athenaWait_timeout (env : AthenaEnv) (fuel i : Nat)
    (h : ∀ j, j < i + fuel → env.state j = .RUNNING) :
    athenaQueryWait env fuel i = .error "Athena query timed out" := by
  induction fuel generalizing i with
  | zero => rfl
  | succ n ih =>
    have hst : env.state i = .RUNNING := h i (by omega)
    simp only [athenaQueryWait, hst]
    exact ih (i + 1) fun j hj => h j (by omega)

theorem execLoop_timeout (st : Nat → QueryState) (rsn : Nat → Option String) (fuel i : Nat)
    (h : ∀ j, j < i + fuel → st j = .RUNNING) :
    executeQueryLoop st rsn fuel i = .timedOut := by
  induction fuel generalizing i with
  | zero => rfl
  | succ n ih =>
    have hst : st i = .RUNNING := h i (by omega)
    simp only [executeQueryLoop, hst]
    exact ih (i + 1) fun j hj => h j (by omega)

/-- The engine trace used to separate the two attempt budgets: RUNNING for
the first 30 polls, SUCCEEDED from the 31st on. -/
def lateSuccessState : Nat → QueryState :=
  fun i => if i < 30 then .RUNNING else .SUCCEEDED

/-- C7, counterexample: the validation count-query loop and the teardown
drop-table loop do not share a 60-attempt budget — on an engine that first
succeeds at the 31st poll, the validation loop succeeds while the
drop-table loop has already given up after its 30 attempts. -/
theorem C7_counterexample_budgets_differ :
    athenaQueryWait
        { state := lateSuccessState, reason := fun _ => none, results := [] }
        validationPollAttempts 0 = .ok () ∧
    dropTableWait lateSuccessState dropPollAttempts 0 = false ∧
    validationPollAttempts ≠ dropPollAttempts := by
  refine ⟨rfl, rfl, by decide⟩

/-- C7, amended: both loops refine the same bounded-polling combinator at
the same 2-time-unit interval, but with different attempt budgets — the
validation count query polls up to 60 attempts while the teardown
drop-table statement polls only up to 30. -/
theorem C7_amended_shared_loop_different_budgets (env : AthenaEnv)
    (st : Nat → QueryState) :
    (athenaQueryWait env validationPollAttempts 0 = .ok () ↔
      boundedPoll env.state validationPollAttempts 0 = .succeeded) ∧
    ((∃ msg, athenaQueryWait env validationPollAttempts 0 = .error msg) ↔
      boundedPoll env.state validationPollAttempts 0 ≠ .succeeded) ∧
    (dropTableWait st dropPollAttempts 0 = true ↔
      boundedPoll st dropPollAttempts 0 = .succeeded) ∧
    validationPollInterval = dropPollInterval ∧
    validationPollAttempts = 60 ∧ dropPollAttempts = 30 := by
  refine ⟨athenaWait_ok_iff env _ 0, ?_, dropWait_iff st _ 0, rfl, rfl, rfl⟩
  rw [athenaWait_total]
  rw [not_iff_not.symm]
  simp only [not_not, ne_eq, Decidable.not_not]
  exact athenaWait_ok_iff env _ 0

/-- C8, counterexample: on an engine that never reaches a terminal state,
the ad-hoc query handler's loop returns status `TIMEOUT`, but the
validation engine's implementation of the same polling loop raises an
exception instead of returning `TIMEOUT`. -/
theorem C8_counterexample_validation_loop_raises :
    run_athena_query
        { state := fun _ => .RUNNING, reason := fun _ => none, results := [] } =
      .error "Athena query timed out" ∧
    (execute_query (fun _ => .RUNNING) (fun _ => none)).status = "TIMEOUT" := by
  constructor <;> rfl

/-- C8, amended: when the engine never reaches a terminal state within the
60-attempt budget, `_execute_query` returns a structured `TIMEOUT` result
without raising, while `_run_athena_query` raises
`Exception("Athena query timed out")`. -/
theorem C8_amended_timeout_behaviour (env : AthenaEnv)
    (h : ∀ i, i < execPollAttempts → env.state i = .RUNNING) :
    execute_query env.state env.reason =
      { status := "TIMEOUT", error := some "Query timed out after 120 seconds" } ∧
    run_athena_query env = .error "Athena query timed out" := by
  constructor
  · unfold execute_query
    rw [execLoop_timeout env.state env.reason execPollAttempts 0 fun j hj => h j (by omega)]
  · unfold run_athena_query
    rw [athenaWait_timeout env validationPollAttempts 0 fun j hj => h j (by
      simp only [execPollAttempts]
      simp only [validationPollAttempts] at hj
      omega)]

/-- C8, witness: the amended theorem applied to the always-RUNNING engine. -/
theorem C8_amended_witness :
    execute_query (fun _ => .RUNNING) (fun _ => none) =
      { status := "TIMEOUT", error := some "Query timed out after 120 seconds" } ∧
    run_athena_query
        { state := fun _ => .RUNNING, reason := fun _ => none, results := [] } =
      .error "Athena query timed out" :=
  C8_amended_timeout_behaviour
    { state := fun _ => .RUNNING, reason := fun _ => none, results := [] }
    fun _ _ => rfl

/-! ## C9 -/

/-- A fully healthy external world for one teardown invocation. -/
def teardownHappyEnv : TeardownEnv :=
  { rawDelete := .ok 2
    warehouseDelete := .ok 3
    drop := { startError := none, state := fun _ => .SUCCEEDED }
    glue := .ok
    metaQuery := .ok [] }

/-- The same world except that the raw-prefix S3 deletion raises. -/
def teardownRawFailEnv : TeardownEnv :=
  { teardownHappyEnv with rawDelete := .error "AccessDenied" }

/-- C9, counterexample: an exception in the raw-prefix S3 deletion aborts
the whole handler — the response is the 500 error and no subsequent step
runs or is reported — and even on a fully successful run the returned
steps list has four entries, the catalog drop and the catalog-entry
removal being merged into one, not five. -/
theorem C9_counterexample_abort_and_step_count :
    teardown_handler "db1" "t1" teardownRawFailEnv = .serverError "AccessDenied" ∧
    teardown_handler "db1" "t1" teardownHappyEnv =
      .ok
        [ { action := "delete_s3_raw", prefixValue := some "db1/t1/raw/",
            deleted_objects := some 2, iceberg_dropped := none,
            glue_deleted := none, deleted_records := none, status := "SUCCESS" },
          { action := "delete_s3_warehouse", prefixValue := some "warehouse/db1/t1/",
            deleted_objects := some 3, iceberg_dropped := none,
            glue_deleted := none, deleted_records := none, status := "SUCCESS" },
          { action := "delete_catalog_table", prefixValue := none,
            deleted_objects := none, iceberg_dropped := some true,
            glue_deleted := some true, deleted_records := none, status := "SUCCESS" },
          { action := "delete_metadata", prefixValue := none,
            deleted_objects := none, iceberg_dropped := none,
            glue_deleted := none, deleted_records := some 0, status := "SUCCESS" } ]
        "SUCCESS" := by
  constructor <;> rfl

/-- C9, amended: with non-empty database and table, and provided the two
S3-prefix deletions and the ledger query do not raise, the handler runs
all five removal actions in sequence and returns a four-entry steps list
in which the catalog drop and the catalog-entry removal are merged into
one step (SUCCESS iff either succeeded); failures of those two catalog
actions never abort the later steps.  An exception in an S3-prefix
deletion or the ledger query, however, aborts the remaining steps (see
the counterexample). -/
theorem C9_amended_four_steps (database table : String) (env : TeardownEnv)
    (nraw nwh : Nat) (items : List MetaItem)
    (hdb : database ≠ "") (htbl : table ≠ "")
    (hraw : env.rawDelete = .ok nraw) (hwh : env.warehouseDelete = .ok nwh)
    (hmeta : env.metaQuery = .ok items) :
    teardown_handler database table env =
      .ok
        [ { action := "delete_s3_raw",
            prefixValue := some (database ++ "/" ++ table ++ "/raw/"),
            deleted_objects := some nraw, iceberg_dropped := none,
            glue_deleted := none, deleted_records := none, status := "SUCCESS" },
          { action := "delete_s3_warehouse",
            prefixValue := some ("warehouse/" ++ database ++ "/" ++ table ++ "/"),
            deleted_objects := some nwh, iceberg_dropped := none,
            glue_deleted := none, deleted_records := none, status := "SUCCESS" },
          { action := "delete_catalog_table", prefixValue := none,
            deleted_objects := none,
            iceberg_dropped := some (drop_iceberg_table env.drop),
            glue_deleted := some (delete_glue_table env.glue),
            deleted_records := none,
            status := if drop_iceberg_table env.drop || delete_glue_table env.glue
              then "SUCCESS" else "FAILED" },
          { action := "delete_metadata", prefixValue := none,
            deleted_objects := none, iceberg_dropped := none,
            glue_deleted := none,
            deleted_records :=
              some (items.filter fun i => i.database_name = database).length,
            status := "SUCCESS" } ]
        (if drop_iceberg_table env.drop || delete_glue_table env.glue
          then "SUCCESS" else "PARTIAL") := by
  by_cases hb : (drop_iceberg_table env.drop || delete_glue_table env.glue) = true <;>
    simp [teardown_handler, delete_metadata_for_table, hraw, hwh, hmeta,
      hdb, htbl, hb]

/-- C9, witness: the amended theorem at a world in which both catalog
actions fail — the metadata step still runs and is reported, and the
overall status degrades to PARTIAL. -/
theorem C9_amended_witness :
    teardown_handler "db9" "t9"
        { rawDelete := .ok 1, warehouseDelete := .ok 0,
          drop := { startError := some "boom", state := fun _ => .RUNNING },
          glue := .otherError "denied",
          metaQuery := .ok [{ job_id := "j", start_time := "s",
                              database_name := "db9", table_name := "t9" }] } =
      .ok
        [ { action := "delete_s3_raw", prefixValue := some "db9/t9/raw/",
            deleted_objects := some 1, iceberg_dropped := none,
            glue_deleted := none, deleted_records := none, status := "SUCCESS" },
          { action := "delete_s3_warehouse", prefixValue := some "warehouse/db9/t9/",
            deleted_objects := some 0, iceberg_dropped := none,
            glue_deleted := none, deleted_records := none, status := "SUCCESS" },
          { action := "delete_catalog_table", prefixValue := none,
            deleted_objects := none, iceberg_dropped := some false,
            glue_deleted := some false, deleted_records := none, status := "FAILED" },
          { action := "delete_metadata", prefixValue := none,
            deleted_objects := none, iceberg_dropped := none,
            glue_deleted := none, deleted_records := some 1, status := "SUCCESS" } ]
        "PARTIAL" := by
  have h := C9_amended_four_steps "db9" "t9"
    { rawDelete := .ok 1, warehouseDelete := .ok 0,
      drop := { startError := some "boom", state := fun _ => .RUNNING },
      glue := .otherError "denied",
      metaQuery := .ok [{ job_id := "j", start_time := "s",
                          database_name := "db9", table_name := "t9" }] }
    1 0 [{ job_id := "j", start_time := "s", database_name := "db9", table_name := "t9" }]
    (by decide) (by decide) rfl rfl rfl
  exact h

/-! ## C10 -/

/-- C10: in a full load whose source row count is the parquet sentinel
`-1`, `validate_target` reports `row_count_match = true` exactly when the
target `COUNT(*)` query raised or failed (the caught error becomes a
target count of `-1`), and `false` whenever the query succeeded with a
well-formed non-negative count — so a query failure can turn the verdict
into PASSED. -/
theorem C10_query_failure_matches_parquet_sentinel (e : TargetEvent) (env : AthenaEnv)
    (glueCols : Except String (List (List Nat)))
    (hlt : e.load_type = "full") (hsrc : e.source_row_count = -1)
    (hcells : ∀ r ∈ env.results, ∀ c ∈ r, 0 ≤ c)
    (hrow : 1 < env.results.length → ∃ c cs, env.results.get? 1 = some (c :: cs)) :
    (validate_target e env glueCols).validation_details.row_count_match = true ↔
      ∃ msg, run_athena_query env = .error msg := by
  have hmatch : (validate_target e env glueCols).validation_details.row_count_match =
      decide (e.source_row_count = get_target_row_count env) := by
    unfold validate_target
    simp [hlt]
  cases hq : athenaQueryWait env validationPollAttempts 0 with
  | error msg =>
    have hrun : run_athena_query env = .error msg := by
      unfold run_athena_query
      rw [hq]
    have hcount : get_target_row_count env = -1 := by
      unfold get_target_row_count
      rw [hrun]
    refine ⟨fun _ => ⟨msg, hrun⟩, fun _ => ?_⟩
    rw [hmatch, hsrc, hcount]
    decide
  | ok u =>
    cases u
    have hrun : run_athena_query env = .ok env.results := by
      unfold run_athena_query
      rw [hq]
    have hred : get_target_row_count env =
        if 1 < env.results.length then
          match env.results.get? 1 with
          | some (c :: _) => c
          | _ => -1
        else 0 := by
      unfold get_target_row_count
      rw [hrun]
    have hcount : 0 ≤ get_target_row_count env := by
      rw [hred]
      by_cases hlen : 1 < env.results.length
      · rw [if_pos hlen]
        obtain ⟨c, cs, hget⟩ := hrow hlen
        rw [hget]
        have hmem : (c :: cs) ∈ env.results := List.get?_mem hget
        exact hcells _ hmem c (List.mem_cons_self c cs)
      · rw [if_neg hlen]
    constructor
    · intro hm
      exfalso
      rw [hmatch, hsrc] at hm
      have := of_decide_eq_true hm
      omega
    · rintro ⟨msg, hmsg⟩
      rw [hrun] at hmsg
      cases hmsg

/-- The event of a full parquet load: source row count is the sentinel
`-1`. -/
def parquetFullEvent : TargetEvent :=
  { database := "db", table := "t", source_row_count := -1,
    source_schema := [], source_checksum := "", load_type := "full" }

/-- An engine whose count query fails at once. -/
def failingCountEnv : AthenaEnv :=
  { state := fun _ => .FAILED, reason := fun _ => none, results := [] }

/-- An engine whose count query succeeds, reporting 5 rows. -/
def healthyCountEnv : AthenaEnv :=
  { state := fun _ => .SUCCEEDED, reason := fun _ => none, results := [[0], [5]] }

/-- C10, witness: with a failed count query the full-load parquet verdict
has `row_count_match = true`; with a successful count of a non-empty
table it is `false`. -/
theorem C10_witness :
    (validate_target parquetFullEvent failingCountEnv
        (.ok [])).validation_details.row_count_match = true ∧
    (validate_target parquetFullEvent healthyCountEnv
        (.ok [])).validation_details.row_count_match = false := by
  constructor
  · exact (C10_query_failure_matches_parquet_sentinel parquetFullEvent failingCountEnv
      (.ok []) rfl rfl (fun r hr => by cases hr) (fun hcontra => absurd hcontra (by decide))).mpr
      ⟨"Athena query FAILED: Unknown", rfl⟩
  · have h := C10_query_failure_matches_parquet_sentinel parquetFullEvent healthyCountEnv
      (.ok []) rfl rfl (by decide) (fun _ => ⟨5, [], rfl⟩)
    cases hb : (validate_target parquetFullEvent healthyCountEnv
        (.ok [])).validation_details.row_count_match with
    | false => rfl
    | true =>
      obtain ⟨msg, hm⟩ := h.mp hb
      rw [show run_athena_query healthyCountEnv = .ok [[0], [5]] from rfl] at hm
      cases hm

end Archiver
